import Mathlib

/-!
Verification of the configuration loading, assembly and validation engine of
the mangal repository (config.go: `GetConfig`, `ParseConfig`, `ValidateConfig`,
`GetConfigPath`, `DefaultConfig`, `DefaultConfigBytes`).

The Go code is shallowly embedded: structs become Lean structures, `nil`
pointers become `Option`, fallible calls become `Except`.  External
collaborators that live outside the verified file (the TOML library, the
filesystem, the scraper constructor, the Anilist client constructor, the
per-source validator, terminal styling) are passed in as explicit parameters
(`Externals`, `FS`), so every theorem quantifies over their behaviour.

A Go runtime panic (nil-pointer dereference) is modelled as `Except.error ()`
in the return type of `ValidateConfig`; a normal Go return `error` / `nil`
is `Except.ok (some msg)` / `Except.ok none`.
-/

/-- FormatType is the type of format used for output (config.go line 13). -/
abbrev FormatType := String

/-- Output format constant (config.go line 16). -/
def PDF : FormatType := "pdf"

/-- Output format constant (config.go line 17). -/
def CBZ : FormatType := "cbz"

/-- Output format constant (config.go line 18). -/
def Zip : FormatType := "zip"

/-- Output format constant (config.go line 19). -/
def Plain : FormatType := "plain"

/-- Output format constant (config.go line 20). -/
def Epub : FormatType := "epub"

/-- Modelled from the spec: the fixed enumerated set of output formats
`{pdf, cbz, zip, plain, epub}` (spec section 4.4 check 6).  The Go slice
`AvailableFormats` is declared in a repository file not under src/. -/
def AvailableFormats : List FormatType := [PDF, CBZ, Zip, Plain, Epub]

/-- Modelled from the spec: the application name constant `Mangal`; the spec
shows its lowercased form in the config path (`config.toml` under the
per-user config dir) and in the help command `mangal formats`. -/
def Mangal : String := "Mangal"

/-- Modelled from the spec: generic membership helper `Contains[T]` (a
repository utility not under src/), used for the exact-name-match lookup of
enabled sources (spec section 4.2) and the format membership check. -/
def Contains [BEq α] (xs : List α) (x : α) : Bool := xs.contains x

/-- Modelled from the spec: ternary helper `IfElse` (a repository utility not
under src/), used at config.go line 263 for the format default. -/
def IfElse (c : Bool) (a b : α) : α := if c then a else b

/-- UI options (config.go lines 23-30). -/
structure UI where
  fullscreen : Bool
  prompt : String
  title : String
  placeholder : String
  mark : String
  chapterNameTemplate : String
deriving DecidableEq

/-- Modelled from the spec: a SourceSpec is a unique name plus an ordered
mapping of setting-name to raw value (spec section 3).  The Go struct
`Source` is declared in a repository file not under src/; the code under
verification only ever writes its `Name` field, so the remaining settings
are kept as an opaque association list. -/
structure Source where
  name : String
  settings : List (String × String)
deriving DecidableEq

/-- Modelled from the spec: the files collector of a scraper (a colly
collector in the real code, outside src/).  The code under verification only
touches its `CacheDir` field; `extra` stands for the rest of its
configuration, so that frame properties are expressible. -/
structure Collector where
  cacheDir : String
  extra : Nat
deriving DecidableEq

/-- Modelled from the spec: a SourceAdapter handle (Go struct `Scraper`,
declared outside src/).  The code under verification reads `Source` and
writes `FilesCollector.CacheDir`; `extra` stands for its remaining fields
(the other collectors), so that frame properties are expressible. -/
structure Scraper where
  source : Option Source
  filesCollector : Collector
  extra : Nat
deriving DecidableEq

/-- Modelled from the spec: the remote-account client capability (Go struct
`AnilistClient`, declared outside src/), constructed from a client
identifier and secret; `ValidateConfig` reads both back (config.go
line 319). -/
structure AnilistClient where
  id : String
  secret : String
deriving DecidableEq

/-- The Anilist sub-struct of Config (config.go lines 36-40); the `Client`
pointer becomes an `Option`. -/
structure AnilistConfig where
  client : Option AnilistClient
  enabled : Bool
  markDownloaded : Bool
deriving DecidableEq

/-- Config (config.go lines 32-46). -/
structure Config where
  scrapers : List Scraper
  format : FormatType
  ui : UI
  anilist : AnilistConfig
  useCustomReader : Bool
  customReader : String
  path : String
  cacheImages : Bool
  chapterNameTemplate : String
deriving DecidableEq

/-- The anilist section of the temporary config (config.go lines 216-221). -/
structure TempAnilist where
  enabled : Bool
  id : String
  secret : String
  markDownloaded : Bool
deriving DecidableEq

/-- tempConfig, the intermediate representation produced by `toml.Unmarshal`
(config.go lines 206-222).  The Go field `Sources map[string]Source` is
modelled as an association list carrying the map in its iteration order;
Go map iteration order is unspecified, so theorems quantify over it. -/
structure TempConfig where
  use : List String
  format : String
  ui : UI
  useCustomReader : Bool
  customReader : String
  path : String
  cacheImages : Bool
  sources : List (String × Source)
  chapterNameTemplate : String
  anilist : TempAnilist
deriving DecidableEq

/-- The external collaborators used by the code under verification, passed
explicitly.  `makeSourceScraper` is `MakeSourceScraper` (outside src/),
`newAnilistClient` is `NewAnilistClient` (outside src/, may fail),
`validateSource` is `ValidateSource` (outside src/, returns an error or
nothing), `accentRender` is the lipgloss style renderer used in the format
error message. -/
structure Externals where
  makeSourceScraper : Source → Scraper
  newAnilistClient : String → String → Except String AnilistClient
  validateSource : Source → Option String
  accentRender : String → String

/-- The filesystem operations used by `GetConfig` (the `Afero` wrapper and
`os.UserConfigDir`), plus the external TOML library call `toml.Unmarshal`
(config.go line 228) which maps the raw bytes to a tempConfig or a syntax
error. -/
structure FS where
  userConfigDir : Except String String
  fileExists : String → Except String Bool
  readFile : String → Except String String
  unmarshal : String → Except String TempConfig

/-- The scraper-building loop of `ParseConfig` (config.go lines 237-252):
iterate the sources map (in its iteration order), skip names not contained
in `use`, set the source name, construct the scraper, and clear its files
collector cache dir when `cacheImages` is false. -/
def buildScrapers (ext : Externals) (cacheImages : Bool) (use : List String) :
    List (String × Source) → List Scraper
  | [] => []
  | (sourceName, source) :: rest =>
    if Contains use sourceName then
      let source := { source with name := sourceName }
      let scraper := ext.makeSourceScraper source
      let scraper :=
        if !cacheImages then
          { scraper with filesCollector := { scraper.filesCollector with cacheDir := "" } }
        else scraper
      scraper :: buildScrapers ext cacheImages use rest
    else buildScrapers ext cacheImages use rest

/-- ParseConfig (config.go lines 204-287).  The `toml.Unmarshal` step is the
external library call; its result on the input bytes is the `ur` argument
(an error for a TOML syntax error).  All field assignments follow the Go
code: cache flag verbatim (line 234), scraper loop (237-252), UI template
default (254-258), path verbatim (260), format default (263), reader fields
verbatim (265-266), global template default (268-272), and the anilist block
(274-284) which alone can fail after a successful unmarshal. -/
def ParseConfig (ext : Externals) (ur : Except String TempConfig) : Except String Config :=
  match ur with
  | Except.error e => Except.error e
  | Except.ok tempConf =>
    let scrapers := buildScrapers ext tempConf.cacheImages tempConf.use tempConf.sources
    let ui :=
      if tempConf.ui.chapterNameTemplate = "" then
        { tempConf.ui with chapterNameTemplate := "[%d] %s" }
      else tempConf.ui
    let base : Config :=
      { scrapers := scrapers
        format := IfElse (tempConf.format == "") PDF tempConf.format
        ui := ui
        anilist := { client := none, enabled := false, markDownloaded := false }
        useCustomReader := tempConf.useCustomReader
        customReader := tempConf.customReader
        path := tempConf.path
        cacheImages := tempConf.cacheImages
        chapterNameTemplate :=
          if tempConf.chapterNameTemplate ≠ "" then tempConf.chapterNameTemplate
          else "[%0d] %s" }
    if tempConf.anilist.enabled then
      match ext.newAnilistClient tempConf.anilist.id tempConf.anilist.secret with
      | Except.error e => Except.error e
      | Except.ok client =>
        Except.ok { base with
          anilist :=
            { client := some client
              enabled := true
              markDownloaded := tempConf.anilist.markDownloaded } }
    else Except.ok base

/-- Transcription of the parse result of `DefaultConfigBytes` (config.go
lines 69-161), the embedded default TOML document, as unmarshalled into a
tempConfig by the TOML library.  Every key of the document is written out
verbatim; the `manganelo` source section carries its settings as raw
key/value pairs (only the section name matters to the code under
verification). -/
def defaultTempConfig : TempConfig :=
  { use := ["manganelo"]
    format := "pdf"
    ui :=
      { fullscreen := true
        prompt := ">"
        title := "Mangal"
        placeholder := "What shall we look for?"
        mark := "▼"
        chapterNameTemplate := "[%d] %s" }
    useCustomReader := false
    customReader := "zathura"
    path := "."
    cacheImages := false
    sources :=
      [("manganelo",
        { name := ""
          settings :=
            [("base", "https://m.manganelo.com"),
             ("chapters_base", "https://chap.manganelo.com/"),
             ("search", "https://m.manganelo.com/search/story/%s"),
             ("manga_anchor", ".search-story-item a.item-title"),
             ("manga_title", ".search-story-item a.item-title"),
             ("chapter_anchor", "li.a-h a.chapter-name"),
             ("chapter_title", "li.a-h a.chapter-name"),
             ("reader_page", ".container-chapter-reader img"),
             ("random_delay_ms", "500"),
             ("reversed_chapters_order", "true"),
             ("whitespace_escape", "_")] })]
    chapterNameTemplate := "[%0d] %s"
    anilist := { enabled := false, id := "", secret := "", markDownloaded := false } }

/-- DefaultConfig (config.go lines 60-63): parse the default document and
drop the error; the returned pointer becomes an `Option`. -/
def DefaultConfig (ext : Externals) : Option Config :=
  (ParseConfig ext (Except.ok defaultTempConfig)).toOption

/-- GetConfigPath (config.go lines 49-57): the platform config dir lookup
may fail; on success the path is the per-user config dir joined with the
lowercased application name and `config.toml`. -/
def GetConfigPath (fs : FS) : Except String String :=
  match fs.userConfigDir with
  | Except.error e => Except.error e
  | Except.ok configDir =>
    Except.ok (configDir ++ "/" ++ Mangal.toLower ++ "/config.toml")

/-- The path-resolution step of `GetConfig` (config.go lines 171-176): an
empty path means the platform default location; a non-empty path is used
as-is and the error variable stays nil. -/
def resolveConfigPath (fs : FS) (path : String) : Except String String :=
  if path = "" then GetConfigPath fs else Except.ok path

/-- GetConfig (config.go lines 165-201): every failure of the load chain
(default-location lookup, existence check, read, parse) falls back to
`DefaultConfig`; a `none` result models a nil `*Config`. -/
def GetConfig (ext : Externals) (fs : FS) (path : String) : Option Config :=
  match resolveConfigPath fs path with
  | Except.error _ => DefaultConfig ext
  | Except.ok configPath =>
    match fs.fileExists configPath with
    | Except.error _ => DefaultConfig ext
    | Except.ok false => DefaultConfig ext
    | Except.ok true =>
      match fs.readFile configPath with
      | Except.error _ => DefaultConfig ext
      | Except.ok contents =>
        match ParseConfig ext (fs.unmarshal contents) with
        | Except.error _ => DefaultConfig ext
        | Except.ok config => some config

/-- Go `strings.Contains`: substring containment, via char lists. -/
def strContains (s pat : String) : Bool := decide (pat.toList <:+: s.toList)

/-- The chapter-name-template check of `ValidateConfig` (config.go lines
298-305): the template must contain `%d`, `%s` or `%0d` as a substring,
otherwise a fixed descriptive error is produced. -/
def validateChapterNameTemplate (template : String) : Option String :=
  if !(strContains template "%d") && !(strContains template "%s")
      && !(strContains template "%0d") then
    some "chapter name template should contain at least one %d, %0d or %s placeholder"
  else none

/-- The error message for an invalid format (config.go lines 331-336): it
names the invalid value and suggests the lowercased-app-name `formats` help
command (styled by the external renderer). -/
def unknownFormatMessage (ext : Externals) (format : FormatType) : String :=
  "unknown format \x27" ++ format ++ "\x27\ntype "
    ++ ext.accentRender (Mangal.toLower ++ " formats")
    ++ " to show available formats"

/-- The scrapers loop of `ValidateConfig` (config.go lines 341-348): a nil
source is an internal error; otherwise the first `ValidateSource` failure is
returned verbatim. -/
def validateScrapersLoop (ext : Externals) : List Scraper → Option String
  | [] => none
  | scraper :: rest =>
    match scraper.source with
    | none => some "internal error: scraper source is nil"
    | some src =>
      match ext.validateSource src with
      | some e => some e
      | none => validateScrapersLoop ext rest

/-- Checks 5 to 7 of `ValidateConfig` (config.go lines 325-348): custom
reader configured when requested, format in the available set, and every
scraper passing its own check. -/
def validateReaderFormatScrapers (ext : Externals) (config : Config) : Option String :=
  if config.useCustomReader && config.customReader == "" then
    some "use_custom_reader is set to true but reader isn\x27t specified"
  else if !(Contains AvailableFormats config.format) then
    some (unknownFormatMessage ext config.format)
  else validateScrapersLoop ext config.scrapers

/-- ValidateConfig (config.go lines 290-351).  The result `Except.ok r`
models the Go return value (`r = some msg` an error, `r = none` nil);
`Except.error ()` models the runtime panic that occurs at line 319 when the
anilist enabled flag is set but the `Client` pointer is nil, since
`config.Anilist.Client.ID` dereferences it without a nil check. -/
def ValidateConfig (ext : Externals) (config : Config) : Except Unit (Option String) :=
  if config.scrapers.length = 0 then Except.ok (some "no manga sources listed")
  else
    match validateChapterNameTemplate config.chapterNameTemplate with
    | some e => Except.ok (some e)
    | none =>
      match validateChapterNameTemplate config.ui.chapterNameTemplate with
      | some e => Except.ok (some e)
      | none =>
        if config.anilist.enabled then
          match config.anilist.client with
          | none => Except.error ()
          | some client =>
            if client.id == "" || client.secret == "" then
              Except.ok (some "anilist is enabled but id or secret is not set")
            else Except.ok (validateReaderFormatScrapers ext config)
        else Except.ok (validateReaderFormatScrapers ext config)

/-- The ordered list of the seven validation checks exactly as the spec
enumerates them (spec section 4.4), each as a function returning the first
violation it finds or nothing.  Check 4 only reads the client when one is
present (the spec presumes the assembler constructed it); check 7 is the
per-adapter self-check, a missing source being structurally invalid. -/
def configChecks (ext : Externals) : List (Config → Option String) :=
  [ fun config =>
      if config.scrapers.length = 0 then some "no manga sources listed" else none,
    fun config => validateChapterNameTemplate config.chapterNameTemplate,
    fun config => validateChapterNameTemplate config.ui.chapterNameTemplate,
    fun config =>
      if config.anilist.enabled then
        match config.anilist.client with
        | some client =>
          if client.id == "" || client.secret == "" then
            some "anilist is enabled but id or secret is not set"
          else none
        | none => none
      else none,
    fun config =>
      if config.useCustomReader && config.customReader == "" then
        some "use_custom_reader is set to true but reader isn\x27t specified"
      else none,
    fun config =>
      if !(Contains AvailableFormats config.format) then
        some (unknownFormatMessage ext config.format)
      else none,
    fun config =>
      config.scrapers.findSome? fun scraper =>
        match scraper.source with
        | none => some "internal error: scraper source is nil"
        | some src => ext.validateSource src ]

/-- Fail-fast evaluation of an ordered list of checks: the first violation
wins, and the result is nothing when every check passes. -/
def firstViolation (checks : List (Config → Option String)) (config : Config) :
    Option String :=
  checks.findSome? fun check => check config

/-- The name a scraper exposes: the name of its source, or empty for a nil
source. -/
def scraperName (scraper : Scraper) : String :=
  match scraper.source with
  | some src => src.name
  | none => ""

/-- A concrete instantiation of the external collaborators, used to evaluate
the code at concrete inputs: the scraper constructor records its source (as
the real `MakeSourceScraper` does) and fills a nonempty cache dir, client
construction succeeds, and every source passes its self-check. -/
def ext0 : Externals :=
  { makeSourceScraper := fun src =>
      { source := some src
        filesCollector := { cacheDir := "cache/" ++ src.name, extra := 7 }
        extra := 3 }
    newAnilistClient := fun i s => Except.ok { id := i, secret := s }
    validateSource := fun _ => none
    accentRender := fun s => s }

/-- A UI record with every field at its zero value. -/
def emptyUI : UI :=
  { fullscreen := false, prompt := "", title := "", placeholder := "", mark := ""
    chapterNameTemplate := "" }

/-- A tempConfig with every field at its zero value: the unmarshal result of
an empty (or all-defaults-omitted) document. -/
def emptyTemp : TempConfig :=
  { use := [], format := "", ui := emptyUI, useCustomReader := false
    customReader := "", path := "", cacheImages := false, sources := []
    chapterNameTemplate := "", anilist := ⟨false, "", "", false⟩ }

/-- A zero Config, used only as the impossible fallback when extracting the
ok-component of a parse known to succeed. -/
def emptyConfig : Config :=
  { scrapers := [], format := "", ui := emptyUI
    anilist := ⟨none, false, false⟩, useCustomReader := false, customReader := ""
    path := "", cacheImages := false, chapterNameTemplate := "" }

/-- A document whose source-section map iterates `a` before `b` while the
enabled-names list is `["b", "a"]`. -/
def tempUseBA : TempConfig :=
  { emptyTemp with
    use := ["b", "a"]
    sources := [("a", ⟨"", []⟩), ("b", ⟨"", []⟩)] }

/-- The config assembled from `tempUseBA`. -/
def configUseBA : Config :=
  (ParseConfig ext0 (Except.ok tempUseBA)).toOption.getD emptyConfig

/-- The config assembled from the all-zero document. -/
def configOfEmpty : Config :=
  (ParseConfig ext0 (Except.ok emptyTemp)).toOption.getD emptyConfig

/-- The config assembled from the Default Document. -/
def configOfDefault : Config :=
  (ParseConfig ext0 (Except.ok defaultTempConfig)).toOption.getD emptyConfig

/-- A document that enables only section `a` with the image cache on. -/
def tempCacheOn : TempConfig :=
  { emptyTemp with
    use := ["a"]
    cacheImages := true
    sources := [("a", ⟨"", [("base", "https://example.org")]⟩)] }

/-- The config assembled from `tempCacheOn`. -/
def configCacheOn : Config :=
  (ParseConfig ext0 (Except.ok tempCacheOn)).toOption.getD emptyConfig

/-- A filesystem in which the platform config-dir lookup fails, the
existence check is denied, reads fail and unmarshalling fails. -/
def fsFail : FS :=
  { userConfigDir := Except.error "no config dir"
    fileExists := fun _ => Except.error "access denied"
    readFile := fun _ => Except.error "unreadable"
    unmarshal := fun _ => Except.error "toml: invalid document" }

/-- A filesystem in which every path exists and reads as a document that
unmarshals to the all-zero tempConfig (a config with no sources, which
fails validation). -/
def fsEmptyDoc : FS :=
  { userConfigDir := Except.error "no config dir"
    fileExists := fun _ => Except.ok true
    readFile := fun _ => Except.ok ""
    unmarshal := fun _ => Except.ok emptyTemp }

/-- A well-formed scraper used to build concrete configs by hand. -/
def scraperA : Scraper :=
  { source := some ⟨"a", []⟩
    filesCollector := { cacheDir := "", extra := 0 }
    extra := 0 }

/-- A config whose anilist enabled flag is set although no client handle was
constructed, and whose other fields pass every earlier validation check. -/
def configNilClient : Config :=
  { emptyConfig with
    scrapers := [scraperA]
    format := "pdf"
    ui := { emptyUI with chapterNameTemplate := "[%d] %s" }
    chapterNameTemplate := "[%0d] %s"
    anilist := ⟨none, true, false⟩ }

/-- A second config with the enabled flag set and no client handle,
differing from `configNilClient` in its format and templates. -/
def configEnabledNoClient : Config :=
  { emptyConfig with
    scrapers := [scraperA]
    format := "cbz"
    ui := { emptyUI with chapterNameTemplate := "%s" }
    chapterNameTemplate := "%d"
    anilist := ⟨none, true, true⟩ }

/-- A config with the anilist account enabled and a constructed client whose
id and secret are both empty. -/
def configAnilistEmpty : Config :=
  { emptyConfig with
    scrapers := [scraperA]
    format := "pdf"
    ui := { emptyUI with chapterNameTemplate := "[%d] %s" }
    chapterNameTemplate := "[%0d] %s"
    anilist := ⟨some ⟨"", ""⟩, true, false⟩ }

/-- A config whose global chapter-name template has no placeholder. -/
def configBadTemplate : Config :=
  { emptyConfig with
    scrapers := [scraperA]
    format := "pdf"
    ui := { emptyUI with chapterNameTemplate := "[%d] %s" }
    chapterNameTemplate := "chapter one"
    anilist := ⟨none, false, false⟩ }

/-- One step of the resolver, written as the filter-then-map it computes:
the scraper constructed for a section, with the cache dir cleared when the
image cache is off. -/
def scraperOfSection (ext : Externals) (cacheImages : Bool) (p : String × Source) :
    Scraper :=
  let constructed := ext.makeSourceScraper { p.2 with name := p.1 }
  if cacheImages then constructed
  else { constructed with
          filesCollector := { constructed.filesCollector with cacheDir := "" } }

theorem buildScrapers_eq_filterMap (ext : Externals) (cache : Bool) (use : List String) :
    ∀ srcs : List (String × Source),
      buildScrapers ext cache use srcs =
        (srcs.filter fun p => Contains use p.1).map (scraperOfSection ext cache)
  | [] => rfl
  | (n, s) :: rest => by
    rw [buildScrapers, List.filter_cons]
    cases h : Contains use n with
    | false => simp only [h, if_false, Bool.false_eq_true, if_neg]
               exact buildScrapers_eq_filterMap ext cache use rest
    | true =>
      simp only [h, if_true]
      rw [List.map_cons, buildScrapers_eq_filterMap ext cache use rest]
      cases cache <;> simp [scraperOfSection]

/-- Inversion of a successful `ParseConfig`: every field of the result in
terms of the intermediate document. -/
theorem parseConfig_ok_fields (ext : Externals) (temp : TempConfig) (c : Config)
    (hp : ParseConfig ext (Except.ok temp) = Except.ok c) :
    c.scrapers = buildScrapers ext temp.cacheImages temp.use temp.sources ∧
    c.format = IfElse (temp.format == "") PDF temp.format ∧
    c.ui = (if temp.ui.chapterNameTemplate = "" then
              { temp.ui with chapterNameTemplate := "[%d] %s" }
            else temp.ui) ∧
    c.useCustomReader = temp.useCustomReader ∧
    c.customReader = temp.customReader ∧
    c.path = temp.path ∧
    c.cacheImages = temp.cacheImages ∧
    c.chapterNameTemplate = (if temp.chapterNameTemplate ≠ "" then
                               temp.chapterNameTemplate
                             else "[%0d] %s") := by
  simp only [ParseConfig] at hp
  by_cases he : temp.anilist.enabled = true
  · rw [if_pos he] at hp
    cases hna : ext.newAnilistClient temp.anilist.id temp.anilist.secret with
    | error e => rw [hna] at hp; cases hp
    | ok client =>
      rw [hna] at hp
      injection hp with h
      subst h
      exact ⟨rfl, rfl, rfl, rfl, rfl, rfl, rfl, rfl⟩
  · rw [if_neg he] at hp
    injection hp with h
    subst h
    exact ⟨rfl, rfl, rfl, rfl, rfl, rfl, rfl, rfl⟩

/-- Inversion of the anilist block of a successful `ParseConfig`. -/
theorem parseConfig_ok_anilist (ext : Externals) (temp : TempConfig) (c : Config)
    (hp : ParseConfig ext (Except.ok temp) = Except.ok c) :
    (temp.anilist.enabled = false → c.anilist = ⟨none, false, false⟩) ∧
    (temp.anilist.enabled = true →
      ∃ client, ext.newAnilistClient temp.anilist.id temp.anilist.secret =
          Except.ok client ∧
        c.anilist = ⟨some client, true, temp.anilist.markDownloaded⟩) := by
  simp only [ParseConfig] at hp
  by_cases he : temp.anilist.enabled = true
  · rw [if_pos he] at hp
    cases hna : ext.newAnilistClient temp.anilist.id temp.anilist.secret with
    | error e => rw [hna] at hp; cases hp
    | ok client =>
      rw [hna] at hp
      injection hp with h
      subst h
      exact ⟨fun hfalse => (nomatch hfalse.symm.trans he),
             fun _ => ⟨client, rfl, rfl⟩⟩
  · rw [if_neg he] at hp
    injection hp with h
    subst h
    exact ⟨fun _ => rfl, fun htrue => absurd htrue he⟩

/-- The names of the resolved scrapers are the section names, in section
iteration order, filtered to the enabled list; needs the fact that the
scraper constructor records its source, which the real `MakeSourceScraper`
does. -/
theorem scrapers_names_eq (ext : Externals) (temp : TempConfig) (c : Config)
    (hmk : ∀ src, (ext.makeSourceScraper src).source = some src)
    (hp : ParseConfig ext (Except.ok temp) = Except.ok c) :
    c.scrapers.map scraperName =
      (temp.sources.filter fun p => Contains temp.use p.1).map Prod.fst := by
  rw [(parseConfig_ok_fields ext temp c hp).1, buildScrapers_eq_filterMap,
    List.map_map]
  refine List.map_congr_left fun p _hp => ?_
  cases hci : temp.cacheImages <;>
    simp [scraperOfSection, scraperName, hmk, hci]

/-- The scrapers loop of the validator is the first violation over the
per-scraper checks. -/
theorem validateScrapersLoop_eq (ext : Externals) :
    ∀ ss : List Scraper,
      validateScrapersLoop ext ss = ss.findSome? fun scraper =>
        match scraper.source with
        | none => some "internal error: scraper source is nil"
        | some src => ext.validateSource src
  | [] => rfl
  | scraper :: rest => by
    rw [validateScrapersLoop]
    cases hs : scraper.source with
    | none => simp [List.findSome?_cons, hs]
    | some src =>
      cases hv : ext.validateSource src with
      | some e => simp [List.findSome?_cons, hs, hv]
      | none => simp [List.findSome?_cons, hs, hv,
                  validateScrapersLoop_eq ext rest]

/-- Checks 5 to 7 of the validator are the first violation over the last
three checks of the spec list. -/
theorem validateReaderFormatScrapers_eq (ext : Externals) (config : Config) :
    validateReaderFormatScrapers ext config =
      List.findSome? (fun check => check config)
        [ fun config =>
            if config.useCustomReader && config.customReader == "" then
              some "use_custom_reader is set to true but reader isn\x27t specified"
            else none,
          fun config =>
            if !(Contains AvailableFormats config.format) then
              some (unknownFormatMessage ext config.format)
            else none,
          fun config =>
            config.scrapers.findSome? fun scraper =>
              match scraper.source with
              | none => some "internal error: scraper source is nil"
              | some src => ext.validateSource src ] := by
  unfold validateReaderFormatScrapers
  by_cases hr : config.useCustomReader = true ∧ config.customReader = ""
  · simp [List.findSome?_cons, hr.1, hr.2]
  · by_cases hf : Contains AvailableFormats config.format = true
    · cases hX : validateScrapersLoop ext config.scrapers with
      | some e =>
        rw [validateScrapersLoop_eq] at hX
        simp [List.findSome?_cons, hr, hf, hX, validateScrapersLoop_eq]
      | none =>
        rw [validateScrapersLoop_eq] at hX
        simp [List.findSome?_cons, hr, hf, hX, validateScrapersLoop_eq]
    · simp only [Bool.not_eq_true] at hf
      simp [List.findSome?_cons, hr, hf, validateScrapersLoop_eq]

/-- The validator equals the fail-fast first violation of the seven ordered
checks of the spec, on every config whose client handle is present whenever
the anilist enabled flag is set (on the remaining configs the validator
panics, see the counterexample to totality). -/
theorem validateConfig_eq_firstViolation (ext : Externals) (config : Config)
    (hcl : config.anilist.enabled = true → config.anilist.client.isSome = true) :
    ValidateConfig ext config = Except.ok (firstViolation (configChecks ext) config) := by
  unfold ValidateConfig firstViolation configChecks
  by_cases h1 : config.scrapers = []
  · have h1l : config.scrapers.length = 0 := by simp [h1]
    simp [h1, h1l, List.findSome?_cons]
  · have h1l : ¬config.scrapers.length = 0 := by
      simpa [List.length_eq_zero] using h1
    rw [if_neg h1l]
    cases hg : validateChapterNameTemplate config.chapterNameTemplate with
    | some e => simp [List.findSome?_cons, h1, hg]
    | none =>
      cases hu : validateChapterNameTemplate config.ui.chapterNameTemplate with
      | some e => simp [List.findSome?_cons, h1, hg, hu]
      | none =>
        by_cases he : config.anilist.enabled = true
        · have hsome := hcl he
          cases hc : config.anilist.client with
          | none => rw [hc] at hsome; simp at hsome
          | some client =>
            by_cases hid : client.id = "" ∨ client.secret = ""
            · simp [List.findSome?_cons, h1, hg, hu, he, hc, hid]
            · rw [validateReaderFormatScrapers_eq]
              simp [List.findSome?_cons, h1, hg, hu, he, hc, hid]
        · simp only [Bool.not_eq_true] at he
          rw [validateReaderFormatScrapers_eq]
          simp [List.findSome?_cons, h1, hg, hu, he]

/-- C1: for every input path and every behaviour of the filesystem and of
the external collaborators, `GetConfig` returns a non-nil config; in every
failure case of the load chain (default-location lookup fails, file does
not exist, file cannot be read, parsing fails) the result is exactly
`DefaultConfig`; and when the whole chain succeeds the parsed config is
returned verbatim, with no validation applied. -/
theorem GetConfig_total_and_fallback (ext : Externals) (fs : FS) (path : String) :
    (GetConfig ext fs path).isSome = true ∧
    (∀ e, resolveConfigPath fs path = Except.error e →
      GetConfig ext fs path = DefaultConfig ext) ∧
    (∀ cp e, resolveConfigPath fs path = Except.ok cp →
      fs.fileExists cp = Except.error e →
      GetConfig ext fs path = DefaultConfig ext) ∧
    (∀ cp, resolveConfigPath fs path = Except.ok cp →
      fs.fileExists cp = Except.ok false →
      GetConfig ext fs path = DefaultConfig ext) ∧
    (∀ cp e, resolveConfigPath fs path = Except.ok cp →
      fs.fileExists cp = Except.ok true →
      fs.readFile cp = Except.error e →
      GetConfig ext fs path = DefaultConfig ext) ∧
    (∀ cp contents e, resolveConfigPath fs path = Except.ok cp →
      fs.fileExists cp = Except.ok true →
      fs.readFile cp = Except.ok contents →
      ParseConfig ext (fs.unmarshal contents) = Except.error e →
      GetConfig ext fs path = DefaultConfig ext) ∧
    (∀ cp contents c, resolveConfigPath fs path = Except.ok cp →
      fs.fileExists cp = Except.ok true →
      fs.readFile cp = Except.ok contents →
      ParseConfig ext (fs.unmarshal contents) = Except.ok c →
      GetConfig ext fs path = some c) := by
  refine ⟨?_, ?_, ?_, ?_, ?_, ?_, ?_⟩
  · unfold GetConfig
    cases hrp : resolveConfigPath fs path with
    | error e => exact rfl
    | ok cp =>
      dsimp only
      cases hex : fs.fileExists cp with
      | error e => exact rfl
      | ok b =>
        cases b with
        | false => exact rfl
        | true =>
          dsimp only
          cases hrd : fs.readFile cp with
          | error e => exact rfl
          | ok contents =>
            dsimp only
            cases hpc : ParseConfig ext (fs.unmarshal contents) with
            | error e => exact rfl
            | ok c => exact rfl
  · intro e h; unfold GetConfig; rw [h]
  · intro cp e h1 h2; unfold GetConfig; rw [h1]; dsimp only; rw [h2]
  · intro cp h1 h2; unfold GetConfig; rw [h1]; dsimp only; rw [h2]
  · intro cp e h1 h2 h3; unfold GetConfig
    rw [h1]; dsimp only; rw [h2]; dsimp only; rw [h3]
  · intro cp contents e h1 h2 h3 h4; unfold GetConfig
    rw [h1]; dsimp only; rw [h2]; dsimp only; rw [h3]; dsimp only; rw [h4]
  · intro cp contents c h1 h2 h3 h4; unfold GetConfig
    rw [h1]; dsimp only; rw [h2]; dsimp only; rw [h3]; dsimp only; rw [h4]

/-- Witness for C1: with a filesystem whose default-location lookup fails,
`GetConfig ""` is the default config; with a filesystem that successfully
reads a document with no sources, the parsed config is returned verbatim
even though it fails validation. -/
theorem GetConfig_total_and_fallback_witness :
    GetConfig ext0 fsFail "" = DefaultConfig ext0 ∧
    GetConfig ext0 fsEmptyDoc "some/path" = some configOfEmpty ∧
    ValidateConfig ext0 configOfEmpty = Except.ok (some "no manga sources listed") := by
  refine ⟨?_, ?_, rfl⟩
  · exact (GetConfig_total_and_fallback ext0 fsFail "").2.1 "no config dir" rfl
  · exact (GetConfig_total_and_fallback ext0 fsEmptyDoc "some/path").2.2.2.2.2.2
      "some/path" "" configOfEmpty rfl rfl rfl rfl

/-- C6: `ParseConfig` fails exactly when the unmarshal step failed (a TOML
syntax error) or the anilist enabled flag is set and the external client
construction fails; and on a document with the flag unset it succeeds with
the anilist fields at rest state (no client, flag unset, mark unset). -/
theorem ParseConfig_error_characterization (ext : Externals)
    (ur : Except String TempConfig) :
    ((∃ e, ParseConfig ext ur = Except.error e) ↔
      ((∃ e, ur = Except.error e) ∨
       (∃ temp, ur = Except.ok temp ∧ temp.anilist.enabled = true ∧
         ∃ e, ext.newAnilistClient temp.anilist.id temp.anilist.secret =
           Except.error e))) ∧
    (∀ temp, ur = Except.ok temp → temp.anilist.enabled = false →
      ∃ c, ParseConfig ext ur = Except.ok c ∧ c.anilist.client = none ∧
        c.anilist.enabled = false ∧ c.anilist.markDownloaded = false) := by
  constructor
  · cases ur with
    | error e => simp [ParseConfig]
    | ok temp =>
      by_cases he : temp.anilist.enabled = true
      · cases hna : ext.newAnilistClient temp.anilist.id temp.anilist.secret with
        | error e => simp [ParseConfig, he, hna]
        | ok client => simp [ParseConfig, he, hna]
      · simp [ParseConfig, he]
  · intro temp h henabled
    subst h
    simp only [ParseConfig]
    rw [if_neg (by simp [henabled])]
    exact ⟨_, rfl, rfl, rfl, rfl⟩

/-- Witness for C6: the all-zero document (anilist disabled) parses to a
config whose anilist fields are at rest state. -/
theorem ParseConfig_error_characterization_witness :
    ParseConfig ext0 (Except.ok emptyTemp) = Except.ok configOfEmpty ∧
    configOfEmpty.anilist.client = none ∧
    configOfEmpty.anilist.enabled = false := by
  obtain ⟨c, hc, h1, h2, _h3⟩ :=
    (ParseConfig_error_characterization ext0 (Except.ok emptyTemp)).2 emptyTemp rfl rfl
  have hce : ParseConfig ext0 (Except.ok emptyTemp) = Except.ok configOfEmpty := rfl
  rw [hce] at hc
  injection hc with h
  subst h
  exact ⟨hce, h1, h2⟩

/-- Counterexample to C5 as stated: on a config whose anilist enabled flag
is set but whose client handle is absent, `ValidateConfig` does not return a
result at all: line 319 dereferences the nil client pointer and the run
panics (modelled by `Except.error ()`). -/
theorem ValidateConfig_panics_without_client :
    configEnabledNoClient.anilist.enabled = true ∧
    configEnabledNoClient.anilist.client = none ∧
    ValidateConfig ext0 configEnabledNoClient = Except.error () :=
  ⟨rfl, rfl, rfl⟩

/-- C5 amended: `ValidateConfig` is total (never panics, always returns a
described failure or nothing) on every config in which a client handle is
present whenever the anilist enabled flag is set; being a pure function of
its argument, it is read-only and idempotent. -/
theorem ValidateConfig_total_when_client_present (ext : Externals) (config : Config)
    (hcl : config.anilist.enabled = true → config.anilist.client.isSome = true) :
    ValidateConfig ext config ≠ Except.error () := by
  rw [validateConfig_eq_firstViolation ext config hcl]
  exact fun hcontra => Except.noConfusion hcontra

/-- Witness for the amended C5 at the default config. -/
theorem ValidateConfig_total_when_client_present_witness :
    ValidateConfig ext0 configOfDefault ≠ Except.error () :=
  ValidateConfig_total_when_client_present ext0 configOfDefault
    (fun henabled => absurd henabled (by decide))

/-- Counterexample to C4 as stated: on a config whose anilist enabled flag
is set with no client handle, `ValidateConfig` panics instead of returning
the first violation of the ordered checks (checks 1 to 3 pass, and check 4
dereferences the nil client). -/
theorem ValidateConfig_no_result_on_nil_client :
    ValidateConfig ext0 configNilClient = Except.error () ∧
    configNilClient.anilist.enabled = true ∧
    configNilClient.anilist.client = none :=
  ⟨rfl, rfl, rfl⟩

/-- C4 amended: on every config whose client handle is present whenever the
anilist enabled flag is set, `ValidateConfig` returns exactly the first
violation of the seven checks in the spec order (and no error when every
check passes); the format error message contains the invalid value. -/
theorem ValidateConfig_fail_fast_order (ext : Externals) (config : Config)
    (hcl : config.anilist.enabled = true → config.anilist.client.isSome = true) :
    ValidateConfig ext config = Except.ok (firstViolation (configChecks ext) config) ∧
    (∀ f, strContains (unknownFormatMessage ext f) f = true) := by
  refine ⟨validateConfig_eq_firstViolation ext config hcl, fun f => ?_⟩
  have hinf : f.toList <:+: (unknownFormatMessage ext f).toList := by
    unfold unknownFormatMessage
    refine ⟨("unknown format \x27").toList,
      ("\x27\ntype " ++ ext.accentRender (Mangal.toLower ++ " formats")
        ++ " to show available formats").toList, ?_⟩
    simp [String.toList, String.data_append, List.append_assoc]
  simpa [strContains] using hinf

/-- Witness for the amended C4 at the default config (no check fails) and
message containment at an invalid format value. -/
theorem ValidateConfig_fail_fast_order_witness :
    ValidateConfig ext0 configOfDefault =
      Except.ok (firstViolation (configChecks ext0) configOfDefault) ∧
    strContains (unknownFormatMessage ext0 "djvu") "djvu" = true := by
  have h := ValidateConfig_fail_fast_order ext0 configOfDefault
    (fun henabled => absurd henabled (by decide))
  exact ⟨h.1, h.2 "djvu"⟩

/-- C7: the template check accepts exactly the templates containing one of
the placeholders, with the concrete examples of the spec, and is applied
independently to the global template (check 2) and the UI template
(check 3). -/
theorem template_placeholder_check :
    (∀ t, validateChapterNameTemplate t = none ↔
      (strContains t "%d" = true ∨ strContains t "%0d" = true ∨
        strContains t "%s" = true)) ∧
    validateChapterNameTemplate "chapter one" =
      some "chapter name template should contain at least one %d, %0d or %s placeholder" ∧
    validateChapterNameTemplate "[%0d] %s" = none ∧
    validateChapterNameTemplate "%d" = none ∧
    validateChapterNameTemplate "%s" = none ∧
    (∀ ext config e, config.scrapers.length ≠ 0 →
      validateChapterNameTemplate config.chapterNameTemplate = some e →
      ValidateConfig ext config = Except.ok (some e)) ∧
    (∀ ext config e, config.scrapers.length ≠ 0 →
      validateChapterNameTemplate config.chapterNameTemplate = none →
      validateChapterNameTemplate config.ui.chapterNameTemplate = some e →
      ValidateConfig ext config = Except.ok (some e)) := by
  refine ⟨?_, by decide, by decide, by decide, by decide, ?_, ?_⟩
  · intro t
    unfold validateChapterNameTemplate
    cases hd : strContains t "%d" <;> cases hs : strContains t "%s" <;>
      cases h0 : strContains t "%0d" <;> simp [hd, hs, h0]
  · intro ext config e hne hsome
    unfold ValidateConfig
    rw [if_neg hne, hsome]
  · intro ext config e hne hnone hsome
    unfold ValidateConfig
    rw [if_neg hne, hnone]
    dsimp only
    rw [hsome]

/-- Witness for C7: a config whose global template is `chapter one` is
rejected with the template error. -/
theorem template_placeholder_check_witness :
    ValidateConfig ext0 configBadTemplate =
      Except.ok (some "chapter name template should contain at least one %d, %0d or %s placeholder") :=
  template_placeholder_check.2.2.2.2.2.1 ext0 configBadTemplate
    "chapter name template should contain at least one %d, %0d or %s placeholder"
    (by decide) (by decide)

/-- C8: on a config passing checks 1 to 3, an enabled anilist account with
an empty client id or secret fails with the remote-account error; with both
non-empty, and likewise whenever the enabled flag is unset, validation
proceeds to the remaining checks, so empty credentials cause no failure
when disabled. -/
theorem anilist_gating (ext : Externals) (config : Config) (client : AnilistClient)
    (h1 : config.scrapers.length ≠ 0)
    (h2 : validateChapterNameTemplate config.chapterNameTemplate = none)
    (h3 : validateChapterNameTemplate config.ui.chapterNameTemplate = none) :
    (config.anilist.enabled = true → config.anilist.client = some client →
      (client.id = "" ∨ client.secret = "") →
      ValidateConfig ext config =
        Except.ok (some "anilist is enabled but id or secret is not set")) ∧
    (config.anilist.enabled = true → config.anilist.client = some client →
      client.id ≠ "" → client.secret ≠ "" →
      ValidateConfig ext config =
        Except.ok (validateReaderFormatScrapers ext config)) ∧
    (config.anilist.enabled = false →
      ValidateConfig ext config =
        Except.ok (validateReaderFormatScrapers ext config)) := by
  have h1l : ¬config.scrapers = [] := by
    intro hnil
    exact h1 (by simp [hnil])
  refine ⟨?_, ?_, ?_⟩
  · intro he hc hid
    simp [ValidateConfig, h1l, h2, h3, he, hc, hid]
  · intro he hc hid1 hid2
    simp [ValidateConfig, h1l, h2, h3, he, hc, hid1, hid2]
  · intro he
    simp [ValidateConfig, h1l, h2, h3, he]

/-- Witness for C8: enabled anilist with an empty-credential client fails
with the remote-account error. -/
theorem anilist_gating_witness :
    ValidateConfig ext0 configAnilistEmpty =
      Except.ok (some "anilist is enabled but id or secret is not set") := by
  have h := anilist_gating ext0 configAnilistEmpty ⟨"", ""⟩
    (by decide) (by decide) (by decide)
  exact h.1 rfl rfl (Or.inl rfl)

/-- Counterexample to C2 as stated: on the all-zero document, the assembled
download path, custom reader and UI prompt stay at their zero values instead
of receiving the Default Document values (`.`, `zathura`, `>`). -/
theorem ParseConfig_keeps_zero_fields :
    ParseConfig ext0 (Except.ok emptyTemp) = Except.ok configOfEmpty ∧
    ParseConfig ext0 (Except.ok defaultTempConfig) = Except.ok configOfDefault ∧
    configOfDefault.path = "." ∧ configOfEmpty.path = "" ∧
    configOfDefault.customReader = "zathura" ∧ configOfEmpty.customReader = "" ∧
    configOfDefault.ui.prompt = ">" ∧ configOfEmpty.ui.prompt = "" ∧
    ¬configOfEmpty.path = configOfDefault.path :=
  ⟨rfl, rfl, rfl, rfl, rfl, rfl, rfl, rfl, by decide⟩

/-- C2 amended: assembly substitutes defaults for exactly three fields (an
empty format becomes `pdf`, an empty UI template becomes `[%d] %s`, an empty
global template becomes `[%0d] %s`); the image-cache flag and every other
field, the download path, custom reader and the remaining UI fields
included, are copied verbatim from the document, zero values included. -/
theorem ParseConfig_default_substitution (ext : Externals) (temp : TempConfig)
    (c : Config) (hp : ParseConfig ext (Except.ok temp) = Except.ok c) :
    (temp.format = "" → c.format = "pdf") ∧
    (temp.format ≠ "" → c.format = temp.format) ∧
    (temp.ui.chapterNameTemplate = "" →
      c.ui = { temp.ui with chapterNameTemplate := "[%d] %s" }) ∧
    (temp.ui.chapterNameTemplate ≠ "" → c.ui = temp.ui) ∧
    (temp.chapterNameTemplate = "" → c.chapterNameTemplate = "[%0d] %s") ∧
    (temp.chapterNameTemplate ≠ "" → c.chapterNameTemplate = temp.chapterNameTemplate) ∧
    c.cacheImages = temp.cacheImages ∧
    c.path = temp.path ∧
    c.customReader = temp.customReader ∧
    c.useCustomReader = temp.useCustomReader := by
  obtain ⟨_hs, hf, hui, hucr, hcr, hpath, hci, hct⟩ :=
    parseConfig_ok_fields ext temp c hp
  refine ⟨?_, ?_, ?_, ?_, ?_, ?_, hci, hpath, hcr, hucr⟩
  · intro h; rw [hf, h]; rfl
  · intro h; rw [hf]; simp [IfElse, h]
  · intro h; rw [hui, if_pos h]
  · intro h; rw [hui, if_neg h]
  · intro h; rw [hct, if_neg (fun hn => hn h)]
  · intro h; rw [hct, if_pos h]

/-- Witness for the amended C2 at the all-zero document. -/
theorem ParseConfig_default_substitution_witness :
    configOfEmpty.format = "pdf" ∧
    configOfEmpty.ui.chapterNameTemplate = "[%d] %s" ∧
    configOfEmpty.chapterNameTemplate = "[%0d] %s" ∧
    configOfEmpty.cacheImages = false ∧
    configOfEmpty.path = "" := by
  obtain ⟨ha, _hb, hui, _hd, hgl, _hf, hcache, hpath, _, _⟩ :=
    ParseConfig_default_substitution ext0 emptyTemp configOfEmpty rfl
  exact ⟨ha rfl, by rw [hui rfl], hgl rfl, hcache, hpath⟩

/-- Counterexample to C3 as stated: with `use = ["b", "a"]` and the source
map iterating section `a` before section `b`, the resolved sequence is
`[a, b]` (section iteration order), not `[b, a]` (enabled-list order). -/
theorem scraper_order_counterexample :
    tempUseBA.use = ["b", "a"] ∧
    tempUseBA.sources.map Prod.fst = ["a", "b"] ∧
    ParseConfig ext0 (Except.ok tempUseBA) = Except.ok configUseBA ∧
    configUseBA.scrapers.map scraperName = ["a", "b"] ∧
    ¬configUseBA.scrapers.map scraperName = ["b", "a"] :=
  ⟨rfl, rfl, rfl, by decide, by decide⟩

/-- C3 amended: the resolved scraper sequence follows the iteration order of
the source-section map (which Go leaves unspecified), restricted to the
names contained in the enabled list; it does not in general follow the
enabled-list order. -/
theorem scraper_order_follows_sections (ext : Externals) (temp : TempConfig)
    (c : Config)
    (hmk : ∀ src, (ext.makeSourceScraper src).source = some src)
    (hp : ParseConfig ext (Except.ok temp) = Except.ok c) :
    c.scrapers.map scraperName =
      (temp.sources.filter fun p => Contains temp.use p.1).map Prod.fst :=
  scrapers_names_eq ext temp c hmk hp

/-- Witness for the amended C3. -/
theorem scraper_order_follows_sections_witness :
    configUseBA.scrapers.map scraperName =
      (tempUseBA.sources.filter fun p => Contains tempUseBA.use p.1).map Prod.fst :=
  scraper_order_follows_sections ext0 tempUseBA configUseBA (fun _ => rfl) rfl

/-- C9: every name both declared as a section and contained in the enabled
list yields exactly one scraper, names never repeat in the output, an
enabled name with no section yields none (its count is zero because it is
not among the section names), and a section not in the enabled list yields
none. -/
theorem scrapers_unique_per_enabled_name (ext : Externals) (temp : TempConfig)
    (c : Config)
    (hmk : ∀ src, (ext.makeSourceScraper src).source = some src)
    (hnd : (temp.sources.map Prod.fst).Nodup)
    (hp : ParseConfig ext (Except.ok temp) = Except.ok c) :
    (∀ n, (c.scrapers.map scraperName).count n =
      (if n ∈ temp.sources.map Prod.fst ∧ Contains temp.use n = true then 1
       else 0)) ∧
    (c.scrapers.map scraperName).Nodup := by
  have hnames := scrapers_names_eq ext temp c hmk hp
  rw [hnames]
  have hnodup :
      ((temp.sources.filter fun p => Contains temp.use p.1).map Prod.fst).Nodup :=
    hnd.sublist ((List.filter_sublist temp.sources).map Prod.fst)
  refine ⟨?_, hnodup⟩
  intro n
  by_cases hmem :
      n ∈ (temp.sources.filter fun p => Contains temp.use p.1).map Prod.fst
  · obtain ⟨p, hpmem, hpn⟩ := List.mem_map.mp hmem
    obtain ⟨hpsrc, hpuse⟩ := List.mem_filter.mp hpmem
    have hcond : n ∈ temp.sources.map Prod.fst ∧ Contains temp.use n = true :=
      ⟨List.mem_map.mpr ⟨p, hpsrc, hpn⟩, hpn ▸ hpuse⟩
    rw [List.count_eq_one_of_mem hnodup hmem, if_pos hcond]
  · have hcond : ¬(n ∈ temp.sources.map Prod.fst ∧ Contains temp.use n = true) := by
      rintro ⟨hin, huse⟩
      apply hmem
      obtain ⟨p, hpsrc, hpn⟩ := List.mem_map.mp hin
      exact List.mem_map.mpr
        ⟨p, List.mem_filter.mpr ⟨hpsrc, hpn ▸ huse⟩, hpn⟩
    rw [List.count_eq_zero.mpr hmem, if_neg hcond]

/-- Witness for C9 on the two-section document: the enabled section name
`a` is resolved exactly once and no name repeats. -/
theorem scrapers_unique_per_enabled_name_witness :
    (configUseBA.scrapers.map scraperName).count "a" = 1 ∧
    (configUseBA.scrapers.map scraperName).Nodup := by
  have h := scrapers_unique_per_enabled_name ext0 tempUseBA configUseBA
    (fun _ => rfl) (by decide) rfl
  refine ⟨?_, h.2⟩
  rw [h.1 "a"]
  decide

/-- C10: the only modification `ParseConfig` makes to a constructed scraper
is clearing the cache directory of its files collector when the image-cache
flag is false; when the flag is true every scraper is exactly what the
constructor returned. -/
theorem ParseConfig_scraper_frame (ext : Externals) (temp : TempConfig) (c : Config)
    (hp : ParseConfig ext (Except.ok temp) = Except.ok c) :
    c.scrapers =
      (temp.sources.filter fun p => Contains temp.use p.1).map fun p =>
        let constructed := ext.makeSourceScraper { p.2 with name := p.1 }
        if temp.cacheImages then constructed
        else { constructed with
                filesCollector :=
                  { constructed.filesCollector with cacheDir := "" } } := by
  rw [(parseConfig_ok_fields ext temp c hp).1, buildScrapers_eq_filterMap]
  rfl

/-- Witness for C10 with the image cache on: the constructed scraper is kept
verbatim, its cache directory included. -/
theorem ParseConfig_scraper_frame_witness :
    configCacheOn.scrapers =
      (tempCacheOn.sources.filter fun p => Contains tempCacheOn.use p.1).map fun p =>
        let constructed := ext0.makeSourceScraper { p.2 with name := p.1 }
        if tempCacheOn.cacheImages then constructed
        else { constructed with
                filesCollector :=
                  { constructed.filesCollector with cacheDir := "" } } :=
  ParseConfig_scraper_frame ext0 tempCacheOn configCacheOn rfl

